import Mathlib

/-!
Verification of the agentsh policy-test harness (`src/examples/test-policy.py`)
against its specification. The Python source is shallowly embedded: each
classification routine becomes a pure Lean function on an explicit
`ExecutionResult` / `SpawnOutcome`, and the tally bookkeeping becomes explicit
state passing on a `Tally` record.
-/

namespace PolicyHarness

/-- Does `needle` occur as a contiguous run inside the character list? -/
def hasSubseqAt (needle : List Char) : List Char → Bool
  | [] => needle.isEmpty
  | c :: rest => needle.isPrefixOf (c :: rest) || hasSubseqAt needle rest

/-- Substring containment, the embedding of Python's `needle in haystack`. -/
def strContains (hay needle : String) : Bool :=
  hasSubseqAt needle.toList hay.toList

/-- The raw signal set captured from one probe invocation
(`subprocess.run` result as seen by the harness): exit code, stdout, stderr. -/
structure ExecutionResult where
  exit_code : Int
  stdout : String
  stderr : String
  deriving Repr, DecidableEq

/-- What actually happens when the harness spawns a child process: it either
completes (with an exit code and captured output), times out
(`subprocess.TimeoutExpired`), or fails at spawn level (any other exception,
carrying its message `str(e)`). -/
inductive SpawnOutcome where
  | completed (exit_code : Int) (stdout stderr : String)
  | timedOut
  | spawnError (msg : String)
  deriving Repr, DecidableEq

/-- `PolicyTester.run_command`: runs a shell-wrapped command and converts every
spawn outcome into a plain `ExecutionResult` — the `try/except` returns
`(-1, "", "timeout")` on timeout and `(-1, "", str(e))` on any other
exception, so the function is total (never raises). -/
def run_command (o : SpawnOutcome) : ExecutionResult :=
  match o with
  | .completed c out err => ⟨c, out, err⟩
  | .timedOut => ⟨-1, "", "timeout"⟩
  | .spawnError m => ⟨-1, "", m⟩

/-- Tri-state probe verdict. -/
inductive Status where
  | Pass
  | Fail
  | Warn
  deriving Repr, DecidableEq

/-- A verdict together with its optional annotation. -/
structure Verdict where
  status : Status
  note : Option String
  deriving Repr, DecidableEq

/-- Python's `str.lower`, over the underlying character list (the harness only
feeds it ASCII diagnostics). -/
def pyLower (s : String) : String := ⟨s.data.map Char.toLower⟩

/-- Python's `str.strip`: drop leading and trailing whitespace. -/
def pyStrip (cs : List Char) : List Char :=
  ((cs.dropWhile Char.isWhitespace).reverse.dropWhile Char.isWhitespace).reverse

/-- `combined = (stderr + stdout).lower()` as computed by `test_denied` and
`test_denied_direct`. -/
def combinedBlob (r : ExecutionResult) : String := pyLower (r.stderr ++ r.stdout)

/-- The classification body of `PolicyTester.test_denied` (lines 76-91):
non-zero exit with "denied"/"blocked" in the blob is a clean Pass; non-zero
exit with "not found"/"no such file" is an annotated Pass; any other non-zero
exit is a Warn; exit 0 is a Fail. -/
def classify_denied (r : ExecutionResult) : Verdict :=
  let combined := combinedBlob r
  if r.exit_code ≠ 0 ∧
      (strContains combined "denied" = true ∨ strContains combined "blocked" = true) then
    ⟨.Pass, none⟩
  else if r.exit_code ≠ 0 ∧
      (strContains combined "not found" = true ∨ strContains combined "no such file" = true) then
    ⟨.Pass, some "command not available"⟩
  else if r.exit_code ≠ 0 then
    ⟨.Warn, some "command failed, unclear if policy"⟩
  else
    ⟨.Fail, some "expected: denied, got: allowed"⟩

/-- The classification body of `PolicyTester.test_allowed` (lines 64-71). -/
def classify_allowed (r : ExecutionResult) : Verdict :=
  if r.exit_code = 0 then ⟨.Pass, none⟩
  else ⟨.Fail, some "expected: allowed, got: blocked"⟩

/-- The classification body of `PolicyTester.test_file_blocked` (lines 99-105):
any non-zero exit is a Pass, exit 0 a Fail; the output text is never
inspected. -/
def classify_file_blocked (r : ExecutionResult) : Verdict :=
  if r.exit_code ≠ 0 then ⟨.Pass, none⟩
  else ⟨.Fail, some "expected: blocked, got: allowed"⟩

/-- `PolicyTester.test_allowed`: run the shell-wrapped command through
`run_command`, then classify. -/
def test_allowed (o : SpawnOutcome) : Verdict := classify_allowed (run_command o)

/-- `PolicyTester.test_denied`: run the shell-wrapped command through
`run_command`, then classify. -/
def test_denied (o : SpawnOutcome) : Verdict := classify_denied (run_command o)

/-- `PolicyTester.test_file_blocked`: run `cat <path>` through `run_command`,
then classify by exit code alone. -/
def test_file_blocked (o : SpawnOutcome) : Verdict := classify_file_blocked (run_command o)

/-- `PolicyTester.test_denied_direct` (lines 107-128): direct argv execution
inside its own `try/except`. A completed run with non-zero exit passes only on
"denied"/"blocked" in the lowercased `stderr + stdout` blob; any other
non-zero exit is a Warn (there is no "not found" branch here); exit 0 is a
Fail; a timeout or spawn error lands in the `except` clause and is a Warn. -/
def test_denied_direct (o : SpawnOutcome) : Verdict :=
  match o with
  | .completed c out err =>
    let combined := combinedBlob ⟨c, out, err⟩
    if c ≠ 0 ∧
        (strContains combined "denied" = true ∨ strContains combined "blocked" = true) then
      ⟨.Pass, none⟩
    else if c ≠ 0 then
      ⟨.Warn, some "command failed, unclear if policy"⟩
    else
      ⟨.Fail, some "expected: denied, got: allowed"⟩
  | .timedOut => ⟨.Warn, some "error"⟩
  | .spawnError _ => ⟨.Warn, some "error"⟩

/-- Python's `str.splitlines` restricted to the newline separator actually
produced by the probes (a final trailing segment is kept as an extra empty
line, which never starts with the marker and is therefore inert). -/
def splitNl : List Char → List (List Char)
  | [] => [[]]
  | c :: rest =>
    let r := splitNl rest
    if c = '\n' then [] :: r
    else
      match r with
      | [] => [[c]]
      | h :: t => (c :: h) :: t

/-- The first stdout line starting with the literal marker `Decision:`
(the loop with `break` in `run_policy_test`, lines 140-143). -/
def decisionLine? (out : String) : Option (List Char) :=
  (splitNl out.data).find? (fun l => "Decision:".data.isPrefixOf l)

/-- Python's `line.split(None, 1)[1]`: drop the first whitespace-delimited
token and the whitespace run after it; `none` models the `IndexError` raised
when the line holds no second field. -/
def decisionField? (line : List Char) : Option (List Char) :=
  let rest :=
    ((line.dropWhile Char.isWhitespace).dropWhile (fun c => !c.isWhitespace)).dropWhile
      Char.isWhitespace
  if rest.isEmpty then none else some rest

/-- `PolicyTester.run_policy_test` (lines 130-152): parse the first
`Decision:` line of stdout, lowercase-and-strip its second field, and compare
it with the expected word. With no marker line the observed decision is the
empty string. An `IndexError` from a marker line with no second field, a
timeout, or a spawn error all land in the `except` clause and give a Warn. -/
def run_policy_test (o : SpawnOutcome) (expected : String) : Verdict :=
  match o with
  | .completed _ out _ =>
    match decisionLine? out with
    | none =>
      if ("" : String) = expected then ⟨.Pass, none⟩
      else ⟨.Fail, some "decision mismatch"⟩
    | some l =>
      match decisionField? l with
      | none => ⟨.Warn, some "error"⟩
      | some f =>
        if pyLower ⟨pyStrip f⟩ = expected then ⟨.Pass, none⟩
        else ⟨.Fail, some "decision mismatch"⟩
  | .timedOut => ⟨.Warn, some "error"⟩
  | .spawnError _ => ⟨.Warn, some "error"⟩

/-- `PolicyTester.test_allowed` as invoked on a command string, with the
sandbox environment modelled as a map from command strings to spawn
outcomes. -/
def test_allowed_cmd (env : String → SpawnOutcome) (cmd : String) : Verdict :=
  test_allowed (env cmd)

/-- `PolicyTester.test_file_readable` (lines 93-95): delegate to
`test_allowed` on the composed fallback command. -/
def test_file_readable (env : String → SpawnOutcome) (path : String) : Verdict :=
  test_allowed_cmd env ("cat " ++ path ++ " 2>/dev/null || ls " ++ path)

/-- Spec-side reading of the FileReadable rule, written from the spec alone:
issue the shell-wrapped probe "read the file, or fall back to listing it" and
classify its result by the Allowed rule. -/
def fileReadableSpec (env : String → SpawnOutcome) (path : String) : Verdict :=
  classify_allowed (run_command (env ("cat " ++ path ++ " 2>/dev/null || ls " ++ path)))

/-- The three counters of `PolicyTester.__init__` (lines 38-41). -/
structure Tally where
  passed : Nat
  failed : Nat
  warnings : Nat
  deriving Repr, DecidableEq

/-- Counters start at zero. -/
def initTally : Tally := ⟨0, 0, 0⟩

/-- Each printed verdict bumps exactly the matching counter. -/
def bump (t : Tally) : Status → Tally
  | .Pass => { t with passed := t.passed + 1 }
  | .Fail => { t with failed := t.failed + 1 }
  | .Warn => { t with warnings := t.warnings + 1 }

/-- One catalogue entry together with the spawn outcome the sandbox produces
for it: the six probe operations the runner can dispatch. -/
inductive Probe where
  | allowed (o : SpawnOutcome)
  | denied (o : SpawnOutcome)
  | fileReadable (o : SpawnOutcome)
  | fileBlocked (o : SpawnOutcome)
  | deniedDirect (o : SpawnOutcome)
  | policyTest (o : SpawnOutcome) (expected : String)
  deriving Repr

/-- The verdict each probe operation reaches (for `fileReadable` the outcome
is that of the composed fallback command, which the source hands straight to
`test_allowed`). -/
def probeVerdict : Probe → Verdict
  | .allowed o => test_allowed o
  | .denied o => test_denied o
  | .fileReadable o => test_allowed o
  | .fileBlocked o => test_file_blocked o
  | .deniedDirect o => test_denied_direct o
  | .policyTest o expected => run_policy_test o expected

/-- One completed probe operation updates the tally by its verdict. -/
def step (t : Tally) (p : Probe) : Tally := bump t (probeVerdict p).status

/-- `PolicyTester.run_tests`: the catalogue folded through the tally. -/
def runTally (ps : List Probe) : Tally := ps.foldl step initTally

/-- The return value of `run_tests` (lines 275-283): 1 when any probe failed,
0 otherwise (also on the pass-with-warnings branch). -/
def run_tests_exit (t : Tally) : Nat :=
  if t.failed > 0 then 1
  else if t.warnings > 0 then 0
  else 0

/-- The observable outcome of `main`. -/
structure MainResult where
  exitCode : Nat
  probesExecuted : Nat
  tally : Tally
  deriving Repr

/-- `main` (lines 286-311): the liveness check (`agentsh --version`) is
modelled as `some c` when it completed with exit code `c` and `none` when it
failed to spawn. Anything other than a clean exit 0 aborts with `sys.exit(1)`
before the tester is even constructed; otherwise the whole catalogue runs and
the process exits with the `run_tests` return value. -/
def main (liveness : Option Int) (ps : List Probe) : MainResult :=
  if liveness = some 0 then
    let t := runTally ps
    ⟨run_tests_exit t, ps.length, t⟩
  else
    ⟨1, 0, initTally⟩

/-- C1: for a shell-wrapped probe with expectation Denied, the classifier
lowercases `stderr + stdout` and returns Pass on a non-zero exit whose blob
contains "denied" or "blocked"; Pass annotated "command not available" on a
non-zero exit whose blob contains "not found" or "no such file" but neither
of the former; Warn on any other non-zero exit; and Fail on exit 0. -/
theorem C1_denied_classification (r : ExecutionResult) :
    (classify_denied r = ⟨.Pass, none⟩ ↔
      r.exit_code ≠ 0 ∧
        (strContains (combinedBlob r) "denied" = true ∨
          strContains (combinedBlob r) "blocked" = true)) ∧
    (classify_denied r = ⟨.Pass, some "command not available"⟩ ↔
      r.exit_code ≠ 0 ∧
        ¬(strContains (combinedBlob r) "denied" = true ∨
          strContains (combinedBlob r) "blocked" = true) ∧
        (strContains (combinedBlob r) "not found" = true ∨
          strContains (combinedBlob r) "no such file" = true)) ∧
    ((classify_denied r).status = .Warn ↔
      r.exit_code ≠ 0 ∧
        ¬(strContains (combinedBlob r) "denied" = true ∨
          strContains (combinedBlob r) "blocked" = true) ∧
        ¬(strContains (combinedBlob r) "not found" = true ∨
          strContains (combinedBlob r) "no such file" = true)) ∧
    ((classify_denied r).status = .Fail ↔ r.exit_code = 0) := by
  by_cases hc : r.exit_code = 0 <;>
    by_cases h1 : strContains (combinedBlob r) "denied" = true <;>
    by_cases h2 : strContains (combinedBlob r) "blocked" = true <;>
    by_cases h3 : strContains (combinedBlob r) "not found" = true <;>
    by_cases h4 : strContains (combinedBlob r) "no such file" = true <;>
    simp_all [classify_denied]

/-- C2 counterexample: a direct-argv Denied probe that completes with exit 127
and a "command not found" diagnostic — the blob contains "not found" and
neither "denied" nor "blocked" — is classified Warn by the code, not the
annotated Pass the claim asserts. -/
theorem C2_direct_not_found_counterexample :
    (127 : Int) ≠ 0 ∧
    strContains (combinedBlob ⟨127, "", "sh: rm: command not found"⟩) "not found" = true ∧
    strContains (combinedBlob ⟨127, "", "sh: rm: command not found"⟩) "denied" = false ∧
    strContains (combinedBlob ⟨127, "", "sh: rm: command not found"⟩) "blocked" = false ∧
    (test_denied_direct (.completed 127 "" "sh: rm: command not found")).status = .Warn := by
  decide

/-- C2 amended: `test_denied_direct` has no "not found" branch. A completed
direct-argv probe is Pass iff its exit is non-zero and the lowercased
`stderr + stdout` blob contains "denied" or "blocked"; every other non-zero
exit — including a "not found"/"no such file" diagnostic — is Warn; exit 0 is
Fail; a timeout or spawn error is caught and is also Warn. -/
theorem C2_direct_denied_classification (c : Int) (out err : String) :
    (test_denied_direct (.completed c out err) = ⟨.Pass, none⟩ ↔
      c ≠ 0 ∧
        (strContains (combinedBlob ⟨c, out, err⟩) "denied" = true ∨
          strContains (combinedBlob ⟨c, out, err⟩) "blocked" = true)) ∧
    ((test_denied_direct (.completed c out err)).status = .Warn ↔
      c ≠ 0 ∧
        ¬(strContains (combinedBlob ⟨c, out, err⟩) "denied" = true ∨
          strContains (combinedBlob ⟨c, out, err⟩) "blocked" = true)) ∧
    ((test_denied_direct (.completed c out err)).status = .Fail ↔ c = 0) ∧
    (test_denied_direct .timedOut).status = .Warn ∧
    (∀ m, (test_denied_direct (.spawnError m)).status = .Warn) := by
  by_cases hc : c = 0 <;>
    by_cases h1 : strContains (combinedBlob ⟨c, out, err⟩) "denied" = true <;>
    by_cases h2 : strContains (combinedBlob ⟨c, out, err⟩) "blocked" = true <;>
    simp_all [test_denied_direct]

/-- C3 counterexample: stdout whose first line is `Decision:deny` does start
with the marker `Decision:`, and its value — the remainder of the line,
trimmed — equals the expected word "deny", so the claim demands Pass and
promises that Warn is impossible; but `line.split(None, 1)[1]` raises
`IndexError` on a line with no second whitespace-delimited field, the
`except` clause catches it, and the code records a Warn. -/
theorem C3_no_space_marker_counterexample :
    "Decision:".data.isPrefixOf "Decision:deny".data = true ∧
    (run_policy_test (.completed 0 "Decision:deny" "") "deny").status = .Warn := by
  decide

/-- C3 amended: for a nonempty, already-lowercase expected word (as every
catalogue expectation is), a completed StructuredDecision probe is Pass iff
the first `Decision:` stdout line has a second whitespace-delimited field
whose stripped value case-insensitively equals the expected word; Warn iff
that line exists but has no second field (the caught `IndexError`); and Fail
iff the marker line is absent or the field mismatches. Absence of the marker
never raises: it yields an empty observed decision and hence Fail. -/
theorem C3_structured_decision_classification (c : Int) (out err expected : String)
    (hne : expected ≠ "") (hlow : pyLower expected = expected) :
    ((run_policy_test (.completed c out err) expected).status = .Pass ↔
      ∃ l f, decisionLine? out = some l ∧ decisionField? l = some f ∧
        pyLower ⟨pyStrip f⟩ = pyLower expected) ∧
    ((run_policy_test (.completed c out err) expected).status = .Warn ↔
      ∃ l, decisionLine? out = some l ∧ decisionField? l = none) ∧
    ((run_policy_test (.completed c out err) expected).status = .Fail ↔
      decisionLine? out = none ∨
        ∃ l f, decisionLine? out = some l ∧ decisionField? l = some f ∧
          pyLower ⟨pyStrip f⟩ ≠ pyLower expected) := by
  rcases hm : decisionLine? out with _ | l
  · have hne' : ¬(("" : String) = expected) := fun h => hne h.symm
    simp [run_policy_test, hm, hne']
  · rcases hf : decisionField? l with _ | f
    · simp [run_policy_test, hm, hf]
    · by_cases he : pyLower ⟨pyStrip f⟩ = expected <;>
        simp [run_policy_test, hm, hf, he, hlow]

/-- C3 witness: a well-formed `Decision: deny` line with expected word "deny"
passes. -/
theorem C3_structured_decision_classification_witness :
    (run_policy_test (.completed 0 "Decision: deny" "") "deny").status = .Pass :=
  (C3_structured_decision_classification 0 "Decision: deny" "" "deny" (by decide)
      (by decide)).1.mpr
    ⟨"Decision: deny".data, "deny".data, by decide, by decide, by decide⟩

/-- C4: for a run that completes the catalogue (liveness check passed), the
process exit code is 1 iff the final failed counter is positive and 0 iff it
is zero; in particular any tally with `failed = 0` — whatever its warnings —
exits 0. -/
theorem C4_exit_code_invariant :
    (∀ t : Tally, (run_tests_exit t = 1 ↔ 0 < t.failed) ∧
      (run_tests_exit t = 0 ↔ t.failed = 0)) ∧
    (∀ ps : List Probe, (main (some 0) ps).exitCode = run_tests_exit (runTally ps)) ∧
    (∀ p w : Nat, run_tests_exit ⟨p, 0, w⟩ = 0) := by
  refine ⟨fun t => ?_, fun ps => by simp [main], fun p w => ?_⟩
  · by_cases hf : t.failed > 0 <;> by_cases hw : t.warnings > 0 <;>
      simp [run_tests_exit, hf, hw] <;> omega
  · by_cases hw : w > 0 <;> simp [run_tests_exit, hw]

lemma step_sum (t : Tally) (p : Probe) :
    (step t p).passed + (step t p).failed + (step t p).warnings
      = t.passed + t.failed + t.warnings + 1 := by
  rcases h : (probeVerdict p).status <;> simp [step, bump, h] <;> omega

lemma step_mono (t : Tally) (p : Probe) :
    t.passed ≤ (step t p).passed ∧ t.failed ≤ (step t p).failed ∧
      t.warnings ≤ (step t p).warnings := by
  rcases h : (probeVerdict p).status <;> simp [step, bump, h]

lemma foldl_step_sum (ps : List Probe) (t : Tally) :
    (ps.foldl step t).passed + (ps.foldl step t).failed + (ps.foldl step t).warnings
      = t.passed + t.failed + t.warnings + ps.length := by
  induction ps generalizing t with
  | nil => simp
  | cons p ps ih =>
    have h := step_sum t p
    simp only [List.foldl_cons, List.length_cons, ih (step t p)]
    omega

/-- C5: the tally starts at zero, every probe operation bumps exactly one of
the three counters by exactly one on every control path (the sum rises by one
and each counter is non-decreasing), and after — or at any point during — a
run the counter sum equals the number of probes executed so far. -/
theorem C5_tally_invariant :
    initTally = ⟨0, 0, 0⟩ ∧
    (∀ (t : Tally) (p : Probe),
      (step t p).passed + (step t p).failed + (step t p).warnings
          = t.passed + t.failed + t.warnings + 1 ∧
        t.passed ≤ (step t p).passed ∧ t.failed ≤ (step t p).failed ∧
        t.warnings ≤ (step t p).warnings) ∧
    (∀ (ps : List Probe) (t : Tally),
      (ps.foldl step t).passed + (ps.foldl step t).failed + (ps.foldl step t).warnings
        = t.passed + t.failed + t.warnings + ps.length) ∧
    (∀ ps : List Probe,
      (runTally ps).passed + (runTally ps).failed + (runTally ps).warnings
        = ps.length) := by
  refine ⟨rfl, fun t p => ⟨step_sum t p, step_mono t p⟩, foldl_step_sum, fun ps => ?_⟩
  have h := foldl_step_sum ps initTally
  simpa [runTally, initTally] using h

/-- C6: an Allowed probe passes iff the exit code is 0 and fails on every
non-zero exit, including the synthetic −1 from a timeout or spawn error; it
never warns. -/
theorem C6_allowed_classification :
    (∀ r : ExecutionResult,
      (classify_allowed r = ⟨.Pass, none⟩ ↔ r.exit_code = 0) ∧
      ((classify_allowed r).status = .Fail ↔ r.exit_code ≠ 0) ∧
      (classify_allowed r).status ≠ .Warn) ∧
    (test_allowed .timedOut).status = .Fail ∧
    (∀ m, (test_allowed (.spawnError m)).status = .Fail) := by
  refine ⟨fun r => ?_, by decide, fun m => rfl⟩
  by_cases hc : r.exit_code = 0 <;> simp [classify_allowed, hc]

/-- C7: `run_command` is a total function of the spawn outcome — a timeout
yields exactly `(-1, "", "timeout")`, a spawn-level error yields `-1` with
stderr set to the error text — and the Denied/Allowed testers classify its
result by the ordinary rules with no special-casing. -/
theorem C7_run_command_never_raises :
    run_command .timedOut = ⟨-1, "", "timeout"⟩ ∧
    (∀ m, run_command (.spawnError m) = ⟨-1, "", m⟩) ∧
    (∀ c out err, run_command (.completed c out err) = ⟨c, out, err⟩) ∧
    (∀ o, test_denied o = classify_denied (run_command o)) ∧
    (∀ o, test_allowed o = classify_allowed (run_command o)) :=
  ⟨rfl, fun _ => rfl, fun _ _ _ => rfl, fun _ => rfl, fun _ => rfl⟩

/-- C8: `test_file_blocked` passes iff the exit code is non-zero and fails iff
it is zero, never warns, ignores the captured output entirely, and is
strictly weaker than the Denied rule: wherever the Denied rule does not fail,
the blocked-file rule passes, while an inconclusive result such as
`(1, "", "disk full")` passes here but only warns under the Denied rule. -/
theorem C8_file_blocked_classification :
    (∀ r : ExecutionResult,
      ((classify_file_blocked r).status = .Pass ↔ r.exit_code ≠ 0) ∧
      ((classify_file_blocked r).status = .Fail ↔ r.exit_code = 0) ∧
      (classify_file_blocked r).status ≠ .Warn) ∧
    (∀ (c : Int) (out err out2 err2 : String),
      classify_file_blocked ⟨c, out, err⟩ = classify_file_blocked ⟨c, out2, err2⟩) ∧
    (∀ r : ExecutionResult,
      (classify_file_blocked r).status = .Pass ∨ (classify_denied r).status = .Fail) ∧
    (classify_file_blocked ⟨1, "", "disk full"⟩).status = .Pass ∧
    (classify_denied ⟨1, "", "disk full"⟩).status = .Warn := by
  refine ⟨fun r => ?_, fun c out err out2 err2 => rfl, fun r => ?_, by decide, by decide⟩
  · by_cases hc : r.exit_code = 0 <;> simp [classify_file_blocked, hc]
  · by_cases hc : r.exit_code = 0
    · right; simp [classify_denied, hc]
    · left; simp [classify_file_blocked, hc]

/-- C9: `test_file_readable` on a description and path behaves exactly as
`test_allowed` on the composed command `cat <path> 2>/dev/null || ls <path>`,
and agrees with the spec-side FileReadable rule (shell-wrapped fallback probe
classified by the Allowed rule) on every environment and path. -/
theorem C9_file_readable_refinement (env : String → SpawnOutcome) (path : String) :
    test_file_readable env path
        = test_allowed_cmd env ("cat " ++ path ++ " 2>/dev/null || ls " ++ path) ∧
    test_file_readable env path = fileReadableSpec env path :=
  ⟨rfl, rfl⟩

/-- C10: any liveness-check outcome other than a clean exit 0 — a non-zero
exit code or a spawn failure (`none`) — makes the harness exit with code 1
before any probe executes, with the tally untouched at zero. -/
theorem C10_liveness_abort (liveness : Option Int) (ps : List Probe)
    (h : liveness ≠ some 0) :
    (main liveness ps).exitCode = 1 ∧ (main liveness ps).probesExecuted = 0 ∧
      (main liveness ps).tally = initTally := by
  simp [main, h]

/-- C10 witness: liveness exit code 1 with a nonempty catalogue aborts with
exit 1 and zero probes executed. -/
theorem C10_liveness_abort_witness :
    (main (some 1) [.allowed (.completed 0 "" "")]).exitCode = 1 ∧
      (main (some 1) [.allowed (.completed 0 "" "")]).probesExecuted = 0 ∧
      (main (some 1) [.allowed (.completed 0 "" "")]).tally = initTally :=
  C10_liveness_abort (some 1) [.allowed (.completed 0 "" "")] (by decide)

end PolicyHarness
